import Mathlib

/-!
Shallow embedding of the `password_manager` repository (Python) for checking
its natural-language specification.

Embedded modules:
* `src/password_manager/utils/encryption_handler.py`  (`EncryptionHandler`)
* `src/password_manager/utils/verification_utils.py`  (`VerificationUtils`)
* `src/password_manager/utils/database_manager.py`    (`DatabaseManager`)
* `src/password_manager/password_manager_api.py`      (`PasswordManagerAPI`)

Bytes are modelled as `List Nat` (one natural per byte/symbol).  The
third-party cryptographic primitives (`cryptography.fernet.Fernet`,
`Argon2id`, `os.urandom`) are not part of the repository; they are modelled
as ideal executable primitives with the contracts the specification states
for them (§4.1 deterministic fixed-length KDF, §4.2 authenticated
encryption).  Python exceptions are modelled with `Except`: a function that
can raise is embedded as an `Except`-valued function, and a `try/except`
block as a `match` on that value.  Randomness (`os.urandom`, the Fernet IV)
is passed in explicitly as a stream argument.
-/

set_option maxRecDepth 40000

namespace PM

/-- Bytes are lists of naturals. -/
abbrev Bytes := List Nat

/-! ### String ↔ bytes codec

Models Python `str.encode('utf-8')` / `bytes.decode('utf-8')`: an injective
encoding of strings into byte lists whose decoder is partial (an arbitrary
byte list need not decode).  We encode each character as its code point;
decoding fails on a number that is not a valid code point. -/

/-- Decoding of a single symbol; `none` when it is not a valid code point. -/
def natToChar (n : Nat) : Option Char :=
  if h : n.isValidChar then some (Char.ofNatAux n h) else none

/-- Models `str.encode('utf-8')`. -/
def strEncode (s : String) : Bytes := s.data.map Char.toNat

/-- Decodes a byte list symbol by symbol; fails on the first invalid one. -/
def decodeChars : List Nat → Option (List Char)
  | [] => some []
  | n :: rest =>
    match natToChar n, decodeChars rest with
    | some c, some cs => some (c :: cs)
    | _, _ => none

/-- Models `bytes.decode('utf-8')`; `none` models `UnicodeDecodeError`. -/
def strDecode (l : Bytes) : Option String :=
  (decodeChars l).map fun cs => ⟨cs⟩

/-- Python exceptions raised by the code paths embedded here. -/
inductive PyErr where
  | valueError (msg : String)
  | invalidToken
  | unicodeDecodeError
deriving DecidableEq

namespace EncryptionHandler

/-- Argon2id parameter (`encryption_handler.py`). -/
def TIME_COST : Nat := 3

/-- Argon2id parameter (`encryption_handler.py`). -/
def MEMORY_COST_MiB : Nat := 64

/-- Argon2id parameter (`encryption_handler.py`). -/
def PARALLELISM_DEGREE : Nat := 2

/-- Derived-key length for Fernet (`encryption_handler.py`). -/
def KEY_LENGTH : Nat := 32

/-- Salt length (`encryption_handler.py`). -/
def SALT_LEN : Nat := 16

/-- Modelled from the spec: `cryptography.hazmat.primitives.kdf.argon2.Argon2id`
is third-party library code, not in the repository.  Per §4.1 the KDF is a
deterministic pure function producing exactly `length` output bytes; this
model is a deterministic byte-mixing function of that shape.  The cost
parameters are mixed in for fidelity but carry no security meaning here. -/
def Argon2id (salt : Bytes) (iterations memory_cost lanes length : Nat)
    (password : Bytes) : Bytes :=
  (List.range length).map fun i =>
    ((password ++ salt).foldl
      (fun a b => (a * 131 + b + iterations + memory_cost + lanes) % 4096)
      (i * 67 + 7)) % 256

/-- `EncryptionHandler.derive_key` (`encryption_handler.py` lines 35-55). -/
def derive_key (password : String) (salt : Bytes) : Bytes :=
  Argon2id salt TIME_COST (MEMORY_COST_MiB * 1024) PARALLELISM_DEGREE
    KEY_LENGTH (strEncode password)

/-- `EncryptionHandler.generate_salt` (`encryption_handler.py` lines 25-33).
Modelled from the spec: `os.urandom` is an OS entropy source; the model
draws the first `SALT_LEN` symbols from an explicit entropy stream. -/
def generate_salt (urandom : Nat → Nat) : Bytes :=
  (List.range SALT_LEN).map urandom

/-- Modelled from the spec: `cryptography.fernet.Fernet` encryption is
third-party library code, not in the repository.  Per §4.2 it is ideal
authenticated encryption; the model token records the key it was built
under (standing in for the HMAC tag), the fresh IV, and the payload.
The `Fernet` constructor raises `ValueError` unless the key is exactly
32 bytes. -/
def fernetEncrypt (key : Bytes) (iv : Nat) (data : Bytes) : Except PyErr Bytes :=
  if key.length = KEY_LENGTH then .ok (key ++ iv :: data)
  else .error (.valueError "Fernet key must be 32 url-safe base64-encoded bytes.")

/-- Modelled from the spec: `Fernet.decrypt` (§4.2).  Authenticates by
comparing the key recorded in the token against the supplied key; any
malformed or mismatching token raises `InvalidToken`. -/
def fernetDecrypt (key : Bytes) (token : Bytes) : Except PyErr Bytes :=
  if key.length = KEY_LENGTH then
    if KEY_LENGTH + 1 ≤ token.length ∧ token.take KEY_LENGTH = key then
      .ok (token.drop (KEY_LENGTH + 1))
    else .error .invalidToken
  else .error (.valueError "Fernet key must be 32 url-safe base64-encoded bytes.")

/-- `EncryptionHandler.encrypt_data` (`encryption_handler.py` lines 57-80):
encodes the string to UTF-8 and encrypts; exceptions are re-raised to the
caller (hence the `Except` result). -/
def encrypt_data (key : Bytes) (iv : Nat) (data : String) : Except PyErr Bytes :=
  fernetEncrypt key iv (strEncode data)

/-- The body of the `try` block of `EncryptionHandler.decrypt_data`
(`encryption_handler.py` lines 97-102): Fernet decryption followed by
UTF-8 decoding, either step may raise. -/
def decrypt_data_exc (key : Bytes) (encrypted_data : Bytes) : Except PyErr String :=
  match fernetDecrypt key encrypted_data with
  | .error e => .error e
  | .ok bs =>
    match strDecode bs with
    | some s => .ok s
    | none => .error .unicodeDecodeError

/-- `EncryptionHandler.decrypt_data` (`encryption_handler.py` lines 82-105):
the `except (InvalidToken, Exception)` clause turns every exception into
`None`. -/
def decrypt_data (key : Bytes) (encrypted_data : Bytes) : Option String :=
  match decrypt_data_exc key encrypted_data with
  | .ok s => some s
  | .error _ => none

end EncryptionHandler

namespace VerificationUtils

/-- Validation constant (`verification_utils.py`). -/
def MIN_PASSWORD_LENGTH : Nat := 12

/-- Validation constant (`verification_utils.py`). -/
def MAX_USERNAME_LENGTH : Nat := 50

/-- The special-character class of `check_password_strength`
(`verification_utils.py` line 37). -/
def specialChars : List Char :=
  ("!@#$%^&*()_+=\x7b\x7d[]:;\"\x27<,>.?/~\x60-").data

/-- The character-class checks of `check_password_strength`
(`verification_utils.py` lines 33-38), in dict insertion order. -/
def strengthChecks : List (String × (Char → Bool)) :=
  [("uppercase letters", Char.isUpper),
   ("lowercase letters", Char.isLower),
   ("numbers", Char.isDigit),
   ("special characters", fun c => specialChars.contains c)]

/-- Result of `check_password_strength`: the dict
`{'is_strong': ..., 'feedback': ...}`. -/
structure StrengthResult where
  is_strong : Bool
  feedback : List String
deriving DecidableEq

/-- `VerificationUtils.check_password_strength` (`verification_utils.py`
lines 15-48). -/
def check_password_strength (password : String) : StrengthResult :=
  let lenShort : Bool := password.length < MIN_PASSWORD_LENGTH
  let feedback0 : List String :=
    if lenShort then ["Password must be at least 12 characters long."] else []
  let failed := strengthChecks.filter fun ck => ! password.data.any ck.2
  let feedback1 := feedback0 ++ failed.map fun ck =>
    "Password should include " ++ ck.1 ++ "."
  if !lenShort && failed.isEmpty then
    { is_strong := true,
      feedback :=
        "Great! Password contains a good mix of character types and is long enough."
          :: feedback1 }
  else
    { is_strong := false, feedback := feedback1 }

/-- `VerificationUtils.validate_length` (`verification_utils.py` lines 50-59);
the `isinstance` guard is vacuous in the typed model. -/
def validate_length (data : String) (max_length : Nat) (field_name : String) :
    Bool × String :=
  if data.length > max_length then
    (false, field_name ++ " length exceeds maximum of " ++ toString max_length
      ++ " characters.")
  else (true, "")

/-- The character class of the username regex `[a-zA-Z0-9._-]`
(`verification_utils.py` line 71). -/
def usernameChar (c : Char) : Bool :=
  c.isAlpha || c.isDigit || c == '.' || c == '_' || c == '-'

/-- `VerificationUtils.is_valid_username` (`verification_utils.py`
lines 61-73). -/
def is_valid_username (username : String) : Bool × String :=
  if username = "" then (false, "Username cannot be empty.")
  else
    let vm := validate_length username MAX_USERNAME_LENGTH "Username"
    if !vm.1 then vm
    else if ! username.data.all usernameChar then
      (false, "Username can only contain letters, numbers, and . _ -")
    else (true, "")

end VerificationUtils

/-! ### Entry payloads and their JSON serialization

`add_entry`/`edit_entry` store `json.dumps` of the dict
`{"Name": ..., "Address": ..., "Username": ..., "Password": ..., "Notes": ...}`
(all string values); `view_entries`/`get_entry_by_id` parse it back with
`json.loads`.  The model serializes with the exact `json.dumps` layout and
parses with a partial inverse.  JSON string escaping is not modelled: the
model is faithful for payload values free of characters that `json.dumps`
would escape (quotes, backslashes, control characters). -/

/-- `EntryPayload` (§3): the plaintext dict stored inside an entry's
ciphertext, in dict insertion order Name, Address, Username, Password,
Notes. -/
structure EntryPayload where
  name : String
  address : String
  username : String
  password : String
  notes : String
deriving DecidableEq

/-- Leading text of the serialized dict, through the opening quote of the
value of `"Name"`. -/
def jsonHead : List Char := ("\x7b\"Name\": \"").data

/-- Separator between the `Name` value and the `Address` value. -/
def jsonSepAddress : List Char := ("\", \"Address\": \"").data

/-- Separator between the `Address` value and the `Username` value. -/
def jsonSepUsername : List Char := ("\", \"Username\": \"").data

/-- Separator between the `Username` value and the `Password` value. -/
def jsonSepPassword : List Char := ("\", \"Password\": \"").data

/-- Separator between the `Password` value and the `Notes` value. -/
def jsonSepNotes : List Char := ("\", \"Notes\": \"").data

/-- Trailing text of the serialized dict. -/
def jsonTail : List Char := ("\"\x7d").data

/-- `json.dumps` of an entry dict (as built by `add_entry` line 106 and
re-serialized during rotation, `password_manager_api.py` line 238). -/
def json_dumps (p : EntryPayload) : String :=
  ⟨jsonHead ++ p.name.data ++ jsonSepAddress ++ p.address.data ++
    jsonSepUsername ++ p.username.data ++ jsonSepPassword ++ p.password.data ++
    jsonSepNotes ++ p.notes.data ++ jsonTail⟩

/-- Strips a prefix off a character list, or fails. -/
def listStrip (pre l : List Char) : Option (List Char) :=
  if pre.isPrefixOf l then some (l.drop pre.length) else none

/-- Splits a character list at the first occurrence of `sep`, or fails when
`sep` does not occur. -/
def splitFirst (sep : List Char) : List Char → Option (List Char × List Char)
  | [] => if sep.isPrefixOf ([] : List Char) then some ([], []) else none
  | c :: rest =>
    if sep.isPrefixOf (c :: rest) then some ([], (c :: rest).drop sep.length)
    else
      match splitFirst sep rest with
      | some (a, b) => some (c :: a, b)
      | none => none

/-- Strips a suffix off a character list, or fails. -/
def listStripTail (suf l : List Char) : Option (List Char) :=
  if suf.reverse.isPrefixOf l.reverse then
    some (l.take (l.length - suf.length))
  else none

/-- `json.loads` of a serialized entry dict: the partial inverse of
`json_dumps`; `none` models `json.JSONDecodeError`. -/
def json_loads (s : String) : Option EntryPayload := do
  let r1 ← listStrip jsonHead s.data
  let (nm, r2) ← splitFirst jsonSepAddress r1
  let (ad, r3) ← splitFirst jsonSepUsername r2
  let (un, r4) ← splitFirst jsonSepPassword r3
  let (pw, r5) ← splitFirst jsonSepNotes r4
  let nt ← listStripTail jsonTail r5
  pure ⟨⟨nm⟩, ⟨ad⟩, ⟨un⟩, ⟨pw⟩, ⟨nt⟩⟩

namespace DatabaseManager

/-- A row of the `users` table (`database_manager.py` lines 42-49). -/
structure UserRow where
  id : Nat
  username : String
  master_key_salt : Bytes
  master_key_hash : Bytes
deriving DecidableEq

/-- A row of the `entries` table (`database_manager.py` lines 50-58). -/
structure EntryRow where
  id : Nat
  user_id : Nat
  entry_name : String
  encrypted_entry_data : Bytes
deriving DecidableEq

/-- The persisted SQLite state: the two tables. -/
structure DB where
  users : List UserRow
  entries : List EntryRow
deriving DecidableEq

/-- `DatabaseManager.get_user_by_username` (`database_manager.py`
lines 92-99): `fetchone` on the username filter. -/
def get_user_by_username (db : DB) (username : String) : Option UserRow :=
  db.users.find? fun u => u.username == username

/-- `DatabaseManager.add_user` (`database_manager.py` lines 75-90): the
UNIQUE constraint on `username` turns a duplicate insert into an
`IntegrityError`, reported as `None`; otherwise AUTOINCREMENT assigns a
fresh row id. -/
def add_user (db : DB) (username : String) (master_key_salt master_key_hash : Bytes) :
    DB × Option Nat :=
  if db.users.any fun u => u.username == username then (db, none)
  else
    let uid := (db.users.foldl (fun a u => max a u.id) 0) + 1
    ({ db with users := db.users ++ [⟨uid, username, master_key_salt, master_key_hash⟩] },
     some uid)

/-- `DatabaseManager.update_user_master_key_details` (`database_manager.py`
lines 101-117): updates the row with the given id; `rowcount > 0` reported
as the Bool. -/
def update_user_master_key_details (db : DB) (user_id : Nat)
    (new_salt new_hash : Bytes) : DB × Bool :=
  ({ db with users := db.users.map fun u =>
      if u.id == user_id then
        { u with master_key_salt := new_salt, master_key_hash := new_hash }
      else u },
   db.users.any fun u => u.id == user_id)

/-- `DatabaseManager.get_entries_by_user_id` (`database_manager.py`
lines 133-140). -/
def get_entries_by_user_id (db : DB) (user_id : Nat) : List EntryRow :=
  db.entries.filter fun e => e.user_id == user_id

/-- `DatabaseManager.get_entry_by_id` (`database_manager.py` lines 142-149):
`fetchone` on the `id = ? AND user_id = ?` filter. -/
def get_entry_by_id (db : DB) (entry_id user_id : Nat) : Option EntryRow :=
  db.entries.find? fun e => e.id == entry_id && e.user_id == user_id

/-- `DatabaseManager.update_entry` (`database_manager.py` lines 151-167):
updates the row matching `id = ? AND user_id = ?` and commits; `rowcount > 0`
reported as the Bool. -/
def update_entry (db : DB) (entry_id user_id : Nat) (new_entry_name : String)
    (new_encrypted_data : Bytes) : DB × Bool :=
  ({ db with entries := db.entries.map fun e =>
      if e.id == entry_id && e.user_id == user_id then
        { e with entry_name := new_entry_name,
                 encrypted_entry_data := new_encrypted_data }
      else e },
   db.entries.any fun e => e.id == entry_id && e.user_id == user_id)

end DatabaseManager

namespace PasswordManagerAPI

open DatabaseManager EncryptionHandler

/-- The mutable session fields of `PasswordManagerAPI` together with the
database it owns (`password_manager_api.py` lines 17-27). -/
structure APIState where
  db : DB
  current_user_id : Option Nat
  current_master_key : Option Bytes
  current_username : Option String
deriving DecidableEq

/-- A decrypted entry dict as produced by `view_entries`/`get_entry_by_id`:
the parsed payload plus the keys `id` and `EntryName` added afterwards
(`password_manager_api.py` lines 132-134). -/
structure ViewEntry where
  payload : EntryPayload
  id : Nat
  entryName : String
deriving DecidableEq

/-- The second component of `view_entries`' return value:
`str | List[Dict]`. -/
inductive StrOrEntries where
  | msg (s : String)
  | entries (l : List ViewEntry)
deriving DecidableEq

/-- The second component of `get_entry_by_id`'s return value:
`str | Dict`. -/
inductive StrOrEntry where
  | msg (s : String)
  | entry (e : ViewEntry)
deriving DecidableEq

/-- `PasswordManagerAPI._load_user_data` (`password_manager_api.py`
lines 35-41). -/
def _load_user_data (db : DB) (username : String) : Option (Nat × Bytes × Bytes) :=
  match get_user_by_username db username with
  | some u => some (u.id, u.master_key_salt, u.master_key_hash)
  | none => none

/-- `PasswordManagerAPI.is_logged_in` (`password_manager_api.py`
lines 86-88). -/
def is_logged_in (st : APIState) : Bool :=
  st.current_user_id.isSome && st.current_master_key.isSome

/-- `PasswordManagerAPI.register_user` (`password_manager_api.py`
lines 43-59).  `urandom` is the entropy stream consumed by
`generate_salt`. -/
def register_user (st : APIState) (username master_password : String)
    (urandom : Nat → Nat) : APIState × Bool × String :=
  let vm := VerificationUtils.is_valid_username username
  if !vm.1 then (st, false, vm.2)
  else if (get_user_by_username st.db username).isSome then
    (st, false, "Username \x27" ++ username ++ "\x27 already exists.")
  else
    let salt := generate_salt urandom
    let derived_key := derive_key master_password salt
    let (db2, uidOpt) := add_user st.db username salt derived_key
    match uidOpt with
    | some _ =>
      ({ st with db := db2 }, true,
       "User \x27" ++ username ++ "\x27 registered successfully.")
    | none =>
      ({ st with db := db2 }, false,
       "Failed to register user due to a database error.")

/-- `PasswordManagerAPI.logout_user` (`password_manager_api.py`
lines 79-84). -/
def logout_user (st : APIState) : APIState × Bool × String :=
  ({ st with current_user_id := none, current_master_key := none,
             current_username := none },
   true, "Logged out successfully.")

/-- `PasswordManagerAPI.login_user` (`password_manager_api.py`
lines 61-77). -/
def login_user (st : APIState) (username master_password : String) :
    APIState × Bool × String :=
  match _load_user_data st.db username with
  | none => (st, false, "Invalid username or password.")
  | some (user_id, stored_salt, stored_derived_key) =>
    let attempted_derived_key := derive_key master_password stored_salt
    if attempted_derived_key = stored_derived_key then
      ({ st with current_user_id := some user_id,
                 current_master_key := some attempted_derived_key,
                 current_username := some username },
       true, "User \x27" ++ username ++ "\x27 logged in successfully.")
    else
      ((logout_user st).1, false, "Invalid username or password.")

/-- One iteration of the decrypt-and-parse loop of `view_entries`
(`password_manager_api.py` lines 128-138): an entry whose decryption
returns `None`, decrypts to an empty (falsy) string, or fails to parse as
JSON is skipped (`continue`). -/
def decryptOne (key : Bytes) (e : EntryRow) : Option ViewEntry :=
  match decrypt_data key e.encrypted_entry_data with
  | some dj =>
    if dj = "" then none
    else
      match json_loads dj with
      | some p => some (⟨p, e.id, e.entry_name⟩ : ViewEntry)
      | none => none
  | none => none

/-- The whole loop of `view_entries` over the user's raw rows. -/
def decryptEntries (key : Bytes) (raw : List EntryRow) : List ViewEntry :=
  raw.filterMap (decryptOne key)

/-- `PasswordManagerAPI.view_entries` (`password_manager_api.py`
lines 121-139). -/
def view_entries (st : APIState) : Bool × StrOrEntries :=
  match st.current_user_id, st.current_master_key with
  | some uid, some key =>
    (true, .entries (decryptEntries key (get_entries_by_user_id st.db uid)))
  | _, _ => (false, .msg "No user logged in.")

/-- `PasswordManagerAPI.get_entry_by_id` (`password_manager_api.py`
lines 141-162). -/
def get_entry_by_id (st : APIState) (entry_id : Nat) : Bool × StrOrEntry :=
  match st.current_user_id, st.current_master_key with
  | some uid, some key =>
    match DatabaseManager.get_entry_by_id st.db entry_id uid with
    | none =>
      (false, .msg ("Entry with ID " ++ toString entry_id ++ " not found."))
    | some e =>
      match decrypt_data key e.encrypted_entry_data with
      | some dj =>
        if dj = "" then
          (false, .msg "Failed to decrypt entry data. Key may be incorrect or data is corrupt.")
        else
          match json_loads dj with
          | some p => (true, .entry (⟨p, entry_id, e.entry_name⟩ : ViewEntry))
          | none =>
            (false, .msg ("Error parsing decrypted entry data for ID "
              ++ toString entry_id ++ "."))
      | none =>
        (false, .msg "Failed to decrypt entry data. Key may be incorrect or data is corrupt.")
  | _, _ => (false, .msg "No user logged in.")

/-- Simulated fault injection for the rotation protocol (§8 of the spec:
"rotation is forced to fail after re-encrypting k of n entries"):
`encrypt_fails i` makes the `encrypt_data` call of the `i`-th loop
iteration raise, `persist_user_fails` makes the final
`update_user_master_key_details` statement fail with a database error. -/
structure RotationFaults where
  encrypt_fails : Nat → Bool
  persist_user_fails : Bool

/-- The fault-free schedule: no injected failures. -/
def noFaults : RotationFaults := ⟨fun _ => false, false⟩

/-- The re-encryption loop of `change_master_password`
(`password_manager_api.py` lines 233-244): every iteration re-serializes
the payload (the dict minus `id`/`EntryName`, in unchanged insertion
order), encrypts it under the new key, and commits it via
`DatabaseManager.update_entry`, whose result the source discards.  An
encryption exception aborts the loop, returning the failing entry's id and
the database as already mutated by the earlier committed iterations. -/
def reencryptLoop (uid : Nat) (new_key : Bytes) (ivs : Nat → Nat)
    (f : RotationFaults) : List ViewEntry → Nat → DB → Except (Nat × DB) DB
  | [], _, db => .ok db
  | e :: rest, i, db =>
    let encRes : Except PyErr Bytes :=
      if f.encrypt_fails i then .error (.valueError "injected encryption fault")
      else encrypt_data new_key (ivs i) (json_dumps e.payload)
    match encRes with
    | .error _ => .error (e.id, db)
    | .ok ct =>
      let (db2, _) := update_entry db e.id uid e.entryName ct
      reencryptLoop uid new_key ivs f rest (i + 1) db2

/-- `PasswordManagerAPI.change_master_password` (`password_manager_api.py`
lines 206-251).  `urandom` feeds `generate_salt`, `ivs` feeds the Fernet
IVs of the re-encryption loop, `f` is the fault-injection schedule
(`noFaults` for the unfaulted code path). -/
def change_master_password (st : APIState)
    (old_master_password new_master_password : String)
    (urandom ivs : Nat → Nat) (f : RotationFaults) : APIState × Bool × String :=
  match st.current_user_id, st.current_master_key with
  | some uid, some _ =>
    match st.current_username.bind fun un => _load_user_data st.db un with
    | none => (st, false, "Could not load user data to verify password.")
    | some (_, stored_salt, stored_derived_key) =>
      if derive_key old_master_password stored_salt ≠ stored_derived_key then
        (st, false, "Incorrect current master password.")
      else
        let strength_check := VerificationUtils.check_password_strength new_master_password
        if !strength_check.is_strong then
          (st, false, "New master password is too weak. "
            ++ String.intercalate " " strength_check.feedback)
        else if new_master_password = old_master_password then
          (st, false, "New master password cannot be the same as the old one.")
        else
          let new_salt := generate_salt urandom
          let new_derived_key := derive_key new_master_password new_salt
          let ve := view_entries st
          if !ve.1 then
            (st, false, "Failed to retrieve entries for re-encryption: "
              ++ (match ve.2 with | .msg m => m | .entries _ => ""))
          else
            -- the isinstance(..., list) guard: a non-list success skips the loop
            let es := match ve.2 with | .entries l => l | .msg _ => []
            match reencryptLoop uid new_derived_key ivs f es 0 st.db with
            | .error (eid, db2) =>
              ({ st with db := db2 }, false,
               "Error re-encrypting entry ID " ++ toString eid ++ ". Aborted.")
            | .ok db2 =>
              if f.persist_user_fails then
                ({ st with db := db2 }, false,
                 "Failed to update master password in database.")
              else
                let (db3, updated) :=
                  update_user_master_key_details db2 uid new_salt new_derived_key
                if updated then
                  ({ st with db := db3, current_master_key := some new_derived_key },
                   true,
                   "Master password changed successfully. All entries have been re-encrypted.")
                else
                  ({ st with db := db3 }, false,
                   "Failed to update master password in database.")
  | _, _ => (st, false, "No user logged in.")

end PasswordManagerAPI

/-! ### Concrete fixtures

A registered user `alice` with two stored entries, used for the witnesses,
for the fault-injected rotation run, and for the counterexamples. -/

open DatabaseManager PasswordManagerAPI in
/-- Extracts the bytes of a non-raising `encrypt_data` call. -/
def exGetD (e : Except PyErr Bytes) (d : Bytes) : Bytes :=
  match e with
  | .ok b => b
  | .error _ => d

/-- Entropy stream used at alice's registration. -/
def saltStream0 : Nat → Nat := fun i => i

/-- Entropy stream used at rotation time (fresh salt). -/
def saltStream1 : Nat → Nat := fun i => i + 50

/-- IV stream used at rotation time. -/
def ivStream1 : Nat → Nat := fun i => i + 200

/-- Alice's original master password. -/
def alicePassword : String := "OldSecret#2023!!"

/-- The new master password submitted to the rotation. -/
def aliceNewPassword : String := "NewSecret#2024!!"

/-- Alice's stored KDF salt. -/
def aliceSalt : Bytes := EncryptionHandler.generate_salt saltStream0

/-- Alice's stored key verifier = derived key. -/
def aliceOldKey : Bytes := EncryptionHandler.derive_key alicePassword aliceSalt

/-- The salt generated during the rotation. -/
def aliceNewSalt : Bytes := EncryptionHandler.generate_salt saltStream1

/-- The key derived from the new password during the rotation. -/
def aliceNewKey : Bytes := EncryptionHandler.derive_key aliceNewPassword aliceNewSalt

/-- Payload of alice's first entry. -/
def payload1 : EntryPayload := ⟨"Email", "mail.example.com", "alice", "pw1", ""⟩

/-- Payload of alice's second entry. -/
def payload2 : EntryPayload := ⟨"Bank", "bank.example.com", "alice2", "pw2", "note"⟩

/-- Ciphertext of alice's first entry, encrypted under her old key. -/
def ct1 : Bytes :=
  exGetD (EncryptionHandler.encrypt_data aliceOldKey 100 (json_dumps payload1)) []

/-- Ciphertext of alice's second entry, encrypted under her old key. -/
def ct2 : Bytes :=
  exGetD (EncryptionHandler.encrypt_data aliceOldKey 101 (json_dumps payload2)) []

/-- The persisted database: alice plus her two entries. -/
def aliceDB : DatabaseManager.DB :=
  ⟨[⟨1, "alice", aliceSalt, aliceOldKey⟩],
   [⟨1, 1, "Email", ct1⟩, ⟨2, 1, "Bank", ct2⟩]⟩

/-- A session in which alice is authenticated. -/
def aliceState : PasswordManagerAPI.APIState :=
  ⟨aliceDB, some 1, some aliceOldKey, some "alice"⟩

/-- Fault schedule for the rotation run: the `encrypt_data` call of loop
iteration 1 (the second entry) raises; nothing else fails. -/
def rotFaults : PasswordManagerAPI.RotationFaults := ⟨fun i => i == 1, false⟩

/-- The fault-injected rotation run on alice's vault: re-encryption of the
second entry fails after the first entry's re-encryption has already been
committed. -/
def rotResult : PasswordManagerAPI.APIState × Bool × String :=
  PasswordManagerAPI.change_master_password aliceState alicePassword
    aliceNewPassword saltStream1 ivStream1 rotFaults

/-- A database with two users; the only entry belongs to bob (id 2). -/
def crossDB : DatabaseManager.DB :=
  ⟨[⟨1, "alice", aliceSalt, aliceOldKey⟩, ⟨2, "bob", [9], [8]⟩],
   [⟨3, 2, "BobEntry", [0]⟩]⟩

/-- A session authenticated as alice (user 1) over `crossDB`. -/
def crossState : PasswordManagerAPI.APIState :=
  ⟨crossDB, some 1, some aliceOldKey, some "alice"⟩

/-- A database whose only entry has a ciphertext (`[0]`) that does not
decrypt under alice's key. -/
def badDB : DatabaseManager.DB :=
  ⟨[⟨1, "alice", aliceSalt, aliceOldKey⟩], [⟨7, 1, "Corrupt", [0]⟩]⟩

/-- A session authenticated as alice over `badDB`. -/
def badState : PasswordManagerAPI.APIState :=
  ⟨badDB, some 1, some aliceOldKey, some "alice"⟩

/-- The freshly constructed API state: empty database, anonymous session. -/
def emptyState : PasswordManagerAPI.APIState := ⟨⟨[], []⟩, none, none, none⟩

/-! ## Codec and validator lemmas -/

theorem natToChar_toNat (c : Char) : natToChar c.toNat = some c := by
  have hv : c.toNat.isValidChar := by
    have h := c.valid
    unfold UInt32.isValidChar at h
    exact h
  rw [natToChar, dif_pos hv]
  rfl

theorem decodeChars_map_toNat (cs : List Char) :
    decodeChars (cs.map Char.toNat) = some cs := by
  induction cs with
  | nil => rfl
  | cons c cs ih => simp [decodeChars, natToChar_toNat, ih]

theorem strDecode_strEncode (s : String) : strDecode (strEncode s) = some s := by
  obtain ⟨d⟩ := s
  simp only [strDecode, strEncode, decodeChars_map_toNat]
  rfl

theorem is_valid_username_length (u : String)
    (h : (VerificationUtils.is_valid_username u).1 = true) :
    1 ≤ u.length ∧ u.length ≤ 50 := by
  unfold VerificationUtils.is_valid_username VerificationUtils.validate_length
      VerificationUtils.MAX_USERNAME_LENGTH at h
  by_cases he : u = ""
  · simp [he] at h
  · have hlen : u.length ≠ 0 := by
      intro h0
      apply he
      have : u.data = [] := List.length_eq_zero.mp h0
      cases u
      simp_all
    by_cases hgt : u.length > 50
    · simp [he, hgt] at h
    · omega

/-! ## Claim theorems -/

/-- C2: encryption round-trip — for every 32-byte key (and any IV and
plaintext string) `decrypt_data` of `encrypt_data` returns exactly the
original plaintext. -/
theorem encrypt_decrypt_roundtrip (key : Bytes) (iv : Nat) (data : String)
    (h : key.length = 32) :
    ∃ ct, EncryptionHandler.encrypt_data key iv data = .ok ct ∧
      EncryptionHandler.decrypt_data key ct = some data := by
  have hk : key.length = EncryptionHandler.KEY_LENGTH := h
  refine ⟨key ++ iv :: strEncode data, ?_, ?_⟩
  · unfold EncryptionHandler.encrypt_data EncryptionHandler.fernetEncrypt
    rw [if_pos hk]
  · have htake : (key ++ iv :: strEncode data).take EncryptionHandler.KEY_LENGTH = key :=
      List.take_left' hk
    have hdrop : (key ++ iv :: strEncode data).drop (EncryptionHandler.KEY_LENGTH + 1)
        = strEncode data := by
      rw [show key ++ iv :: strEncode data = (key ++ [iv]) ++ strEncode data by simp]
      refine List.drop_left' ?_
      simp [hk]
    have hlen : EncryptionHandler.KEY_LENGTH + 1 ≤ (key ++ iv :: strEncode data).length := by
      simp [hk]
    unfold EncryptionHandler.decrypt_data EncryptionHandler.decrypt_data_exc
        EncryptionHandler.fernetDecrypt
    rw [if_pos hk, if_pos ⟨hlen, htake⟩, hdrop]
    simp [strDecode_strEncode]

/-- Witness for C2 at a concrete key, IV and plaintext. -/
theorem encrypt_decrypt_roundtrip_witness :
    ∃ ct, EncryptionHandler.encrypt_data (List.replicate 32 7) 5 "hunter2" = .ok ct ∧
      EncryptionHandler.decrypt_data (List.replicate 32 7) ct = some "hunter2" :=
  encrypt_decrypt_roundtrip (List.replicate 32 7) 5 "hunter2" (by decide)

/-- C3: key sensitivity — decrypting with a different 32-byte key than the
one used for encryption reports failure (`none`), never a plaintext. -/
theorem decrypt_wrong_key_fails (k1 k2 : Bytes) (iv : Nat) (data : String)
    (ct : Bytes) (h1 : k1.length = 32) (h2 : k2.length = 32) (hne : k1 ≠ k2)
    (henc : EncryptionHandler.encrypt_data k1 iv data = .ok ct) :
    EncryptionHandler.decrypt_data k2 ct = none := by
  have hk1 : k1.length = EncryptionHandler.KEY_LENGTH := h1
  have hk2 : k2.length = EncryptionHandler.KEY_LENGTH := h2
  unfold EncryptionHandler.encrypt_data EncryptionHandler.fernetEncrypt at henc
  rw [if_pos hk1] at henc
  have hct : ct = k1 ++ iv :: strEncode data := by
    cases henc
    rfl
  subst hct
  have htake : (k1 ++ iv :: strEncode data).take EncryptionHandler.KEY_LENGTH = k1 :=
    List.take_left' hk1
  unfold EncryptionHandler.decrypt_data EncryptionHandler.decrypt_data_exc
      EncryptionHandler.fernetDecrypt
  rw [if_pos hk2, if_neg]
  intro hcond
  exact hne (htake ▸ hcond.2)

/-- Witness for C3 at two concrete distinct keys. -/
theorem decrypt_wrong_key_fails_witness :
    EncryptionHandler.decrypt_data (List.replicate 32 8)
      (exGetD (EncryptionHandler.encrypt_data (List.replicate 32 7) 5 "hunter2") []) = none :=
  decrypt_wrong_key_fails (List.replicate 32 7) (List.replicate 32 8) 5 "hunter2"
    _ (by decide) (by decide) (by decide) (by rfl)

/-- C8: KDF contract — `derive_key` is deterministic and returns exactly
32 bytes; `generate_salt` returns exactly 16 bytes. -/
theorem kdf_contract :
    (∀ (p1 p2 : String) (s1 s2 : Bytes), p1 = p2 → s1 = s2 →
      EncryptionHandler.derive_key p1 s1 = EncryptionHandler.derive_key p2 s2) ∧
    (∀ (p : String) (s : Bytes), (EncryptionHandler.derive_key p s).length = 32) ∧
    (∀ r : Nat → Nat, (EncryptionHandler.generate_salt r).length = 16) := by
  refine ⟨fun p1 p2 s1 s2 hp hs => by rw [hp, hs], fun p s => ?_, fun r => ?_⟩
  · simp [EncryptionHandler.derive_key, EncryptionHandler.Argon2id,
      EncryptionHandler.KEY_LENGTH]
  · simp [EncryptionHandler.generate_salt, EncryptionHandler.SALT_LEN]

/-- Witness for C8 at a concrete password, salt and entropy stream. -/
theorem kdf_contract_witness :
    EncryptionHandler.derive_key "pw" [3] = EncryptionHandler.derive_key "pw" [3] ∧
    (EncryptionHandler.derive_key "pw" [3]).length = 32 ∧
    (EncryptionHandler.generate_salt saltStream0).length = 16 :=
  ⟨kdf_contract.1 "pw" "pw" [3] [3] rfl rfl, kdf_contract.2.1 "pw" [3],
   kdf_contract.2.2 saltStream0⟩

/-- C10: `decrypt_data` is total at the cipher boundary — every exception
of the underlying pipeline (wrong key length, malformed or mismatching
token, undecodable plaintext) is converted to `none` and every success to
`some`; in particular a key of the wrong length yields `none`. -/
theorem decrypt_data_never_raises (key ct : Bytes) :
    ((∃ e, EncryptionHandler.decrypt_data_exc key ct = .error e) ↔
      EncryptionHandler.decrypt_data key ct = none) ∧
    (∀ s, EncryptionHandler.decrypt_data_exc key ct = .ok s ↔
      EncryptionHandler.decrypt_data key ct = some s) ∧
    (key.length ≠ 32 → EncryptionHandler.decrypt_data key ct = none) := by
  refine ⟨?_, ?_, ?_⟩
  · cases h : EncryptionHandler.decrypt_data_exc key ct <;>
      simp [EncryptionHandler.decrypt_data, h]
  · intro s
    cases h : EncryptionHandler.decrypt_data_exc key ct <;>
      simp [EncryptionHandler.decrypt_data, h]
  · intro hne
    have : key.length ≠ EncryptionHandler.KEY_LENGTH := hne
    unfold EncryptionHandler.decrypt_data EncryptionHandler.decrypt_data_exc
        EncryptionHandler.fernetDecrypt
    rw [if_neg this]

/-- Witness for C10: a key of invalid length still produces `none`. -/
theorem decrypt_data_never_raises_witness :
    ([] : Bytes).length ≠ 32 ∧ EncryptionHandler.decrypt_data [] [0] = none :=
  ⟨by decide, (decrypt_data_never_raises [] [0]).2.2 (by decide)⟩

theorem mem_decryptEntries (key : Bytes) (raw : List DatabaseManager.EntryRow)
    (v : PasswordManagerAPI.ViewEntry)
    (hv : v ∈ PasswordManagerAPI.decryptEntries key raw) :
    ∃ e ∈ raw, (∃ dj, EncryptionHandler.decrypt_data key e.encrypted_entry_data
      = some dj) ∧ v.id = e.id := by
  unfold PasswordManagerAPI.decryptEntries at hv
  rw [List.mem_filterMap] at hv
  obtain ⟨e, he, hf⟩ := hv
  refine ⟨e, he, ?_⟩
  cases hd : EncryptionHandler.decrypt_data key e.encrypted_entry_data with
  | none => simp [PasswordManagerAPI.decryptOne, hd] at hf
  | some dj =>
    simp only [PasswordManagerAPI.decryptOne, hd] at hf
    refine ⟨⟨dj, rfl⟩, ?_⟩
    by_cases hdj : dj = ""
    · rw [if_pos hdj] at hf; cases hf
    · rw [if_neg hdj] at hf
      cases hj : json_loads dj with
      | none => rw [hj] at hf; cases hf
      | some p => rw [hj] at hf; cases hf; rfl

/-- C4: no cross-user entry access — when no entry with the requested id
belongs to the authenticated user (it belongs to another user, or does not
exist at all), `get_entry_by_id` returns the one NotFound outcome, never
the entry's data; the result is the same expression in both cases, so the
two situations are indistinguishable to the caller. -/
theorem get_entry_cross_user_not_found (st : PasswordManagerAPI.APIState)
    (uid : Nat) (key : Bytes) (eid : Nat)
    (hu : st.current_user_id = some uid) (hk : st.current_master_key = some key)
    (hown : ∀ e ∈ st.db.entries, e.id = eid → e.user_id ≠ uid) :
    PasswordManagerAPI.get_entry_by_id st eid =
      (false, .msg ("Entry with ID " ++ toString eid ++ " not found.")) := by
  have hfind : DatabaseManager.get_entry_by_id st.db eid uid = none := by
    unfold DatabaseManager.get_entry_by_id
    rw [List.find?_eq_none]
    intro e he
    simp only [Bool.and_eq_true, beq_iff_eq, not_and]
    exact fun h1 => hown e he h1
  unfold PasswordManagerAPI.get_entry_by_id
  rw [hu, hk]
  simp [hfind]

/-- Witness for C4: authenticated as alice, fetching bob's entry (id 3)
gives the same NotFound message as a nonexistent id would. -/
theorem get_entry_cross_user_not_found_witness :
    PasswordManagerAPI.get_entry_by_id crossState 3 =
      (false, .msg ("Entry with ID " ++ toString 3 ++ " not found.")) :=
  get_entry_cross_user_not_found crossState 1 aliceOldKey 3 rfl rfl (by decide)

/-- C5: login failure uniformity — whenever `login_user` fails, for any
reason (unknown username or key mismatch), the returned message is the one
generic "Invalid username or password." string. -/
theorem login_failure_uniform (st : PasswordManagerAPI.APIState)
    (username password : String)
    (h : (PasswordManagerAPI.login_user st username password).2.1 = false) :
    (PasswordManagerAPI.login_user st username password).2.2 =
      "Invalid username or password." := by
  unfold PasswordManagerAPI.login_user at h ⊢
  cases hl : PasswordManagerAPI._load_user_data st.db username with
  | none => simp [hl]
  | some t =>
    obtain ⟨user_id, stored_salt, stored_hash⟩ := t
    rw [hl] at h
    by_cases hkey : EncryptionHandler.derive_key password stored_salt = stored_hash
    · simp [hkey] at h
    · simp [hkey]

/-- Witness for C5: a login against an empty user table fails with the
generic message. -/
theorem login_failure_uniform_witness :
    (PasswordManagerAPI.login_user emptyState "nobody" "pw").2.2 =
      "Invalid username or password." :=
  login_failure_uniform emptyState "nobody" "pw" (by decide)

/-- C9: a failed login with a key mismatch destroys any existing session —
after the call all three session fields are cleared, even if a user was
authenticated before. -/
theorem failed_login_clears_session (st : PasswordManagerAPI.APIState)
    (username password : String) (row : DatabaseManager.UserRow)
    (hfound : DatabaseManager.get_user_by_username st.db username = some row)
    (hmism : EncryptionHandler.derive_key password row.master_key_salt ≠
      row.master_key_hash) :
    (PasswordManagerAPI.login_user st username password).1.current_user_id = none ∧
    (PasswordManagerAPI.login_user st username password).1.current_master_key = none ∧
    (PasswordManagerAPI.login_user st username password).1.current_username = none := by
  unfold PasswordManagerAPI.login_user PasswordManagerAPI._load_user_data
  rw [hfound]
  simp [hmism, PasswordManagerAPI.logout_user]

/-- Witness for C9: alice is authenticated, then a login attempt for her
account with a wrong password clears the whole session. -/
theorem failed_login_clears_session_witness :
    (PasswordManagerAPI.login_user aliceState "alice" "wrong").1.current_user_id = none ∧
    (PasswordManagerAPI.login_user aliceState "alice" "wrong").1.current_master_key = none ∧
    (PasswordManagerAPI.login_user aliceState "alice" "wrong").1.current_username = none :=
  failed_login_clears_session aliceState "alice" "wrong"
    ⟨1, "alice", aliceSalt, aliceOldKey⟩ (by decide) (by decide)

/-- C6 counterexample: `view_entries` does not surface a decrypt failure —
on a vault whose only entry fails to decrypt under the session key it
returns success with the entry silently omitted, not a crypto-failure
outcome. -/
theorem view_entries_swallows_decrypt_failure :
    EncryptionHandler.decrypt_data aliceOldKey [0] = none ∧
    PasswordManagerAPI.view_entries badState = (true, .entries []) := by decide

/-- C6 as amended: `get_entry_by_id` surfaces a decrypt failure as a
distinct failure outcome with a fixed low-information message, while
`view_entries` silently omits every entry that fails to decrypt and still
reports success. -/
theorem decrypt_failure_surfacing (st : PasswordManagerAPI.APIState)
    (uid : Nat) (key : Bytes) (eid : Nat) (e : DatabaseManager.EntryRow)
    (hu : st.current_user_id = some uid) (hk : st.current_master_key = some key)
    (hfind : DatabaseManager.get_entry_by_id st.db eid uid = some e)
    (hall : ∀ e2 ∈ st.db.entries, e2.id = eid →
      EncryptionHandler.decrypt_data key e2.encrypted_entry_data = none) :
    PasswordManagerAPI.get_entry_by_id st eid =
      (false, .msg "Failed to decrypt entry data. Key may be incorrect or data is corrupt.") ∧
    ∃ l, PasswordManagerAPI.view_entries st = (true, .entries l) ∧
      ∀ v ∈ l, v.id ≠ eid := by
  have hmem : e ∈ st.db.entries := by
    have := List.mem_of_find?_eq_some hfind
    exact this
  have hpred := List.find?_some hfind
  have heid : e.id = eid := by
    simp only [Bool.and_eq_true, beq_iff_eq] at hpred
    exact hpred.1
  have hdec : EncryptionHandler.decrypt_data key e.encrypted_entry_data = none :=
    hall e hmem heid
  constructor
  · unfold PasswordManagerAPI.get_entry_by_id
    rw [hu, hk]
    simp [hfind, hdec]
  · refine ⟨PasswordManagerAPI.decryptEntries key
      (DatabaseManager.get_entries_by_user_id st.db uid), ?_, ?_⟩
    · unfold PasswordManagerAPI.view_entries
      rw [hu, hk]
    · intro v hv hveq
      obtain ⟨e2, he2, ⟨dj, hdj⟩, hid⟩ := mem_decryptEntries key _ v hv
      have he2' : e2 ∈ st.db.entries :=
        (List.mem_filter.mp (by exact he2)).1
      have heq2 : e2.id = eid := by rw [← hid, hveq]
      rw [hall e2 he2' heq2] at hdj
      cases hdj

/-- Witness for C6's amended statement on a concrete corrupted vault. -/
theorem decrypt_failure_surfacing_witness :
    PasswordManagerAPI.get_entry_by_id badState 7 =
      (false, .msg "Failed to decrypt entry data. Key may be incorrect or data is corrupt.") ∧
    ∃ l, PasswordManagerAPI.view_entries badState = (true, .entries l) ∧
      ∀ v ∈ l, v.id ≠ 7 :=
  decrypt_failure_surfacing badState 1 aliceOldKey 7 ⟨7, 1, "Corrupt", [0]⟩
    rfl rfl (by decide) (by decide)

/-- C7 counterexample: the one-character username "a" passes validation
and registers successfully, so usernames shorter than 3 characters are not
rejected. -/
theorem short_username_accepted :
    VerificationUtils.is_valid_username "a" = (true, "") ∧
    (PasswordManagerAPI.register_user emptyState "a" "x" saltStream0).2.1 = true := by
  decide

/-- C7 as amended: `register_user` accepts a username only if its length
is between 1 and 50 characters inclusive (there is no 3-character
minimum). -/
theorem register_username_length_bounds (st : PasswordManagerAPI.APIState)
    (u p : String) (r : Nat → Nat)
    (h : (PasswordManagerAPI.register_user st u p r).2.1 = true) :
    1 ≤ u.length ∧ u.length ≤ 50 := by
  apply is_valid_username_length
  by_contra hv
  rw [Bool.not_eq_true] at hv
  unfold PasswordManagerAPI.register_user at h
  simp only [hv, Bool.not_false, if_true] at h
  exact Bool.false_ne_true h

/-- Witness for C7's amended statement at a concrete registration. -/
theorem register_username_length_bounds_witness :
    1 ≤ ("abc" : String).length ∧ ("abc" : String).length ≤ 50 :=
  register_username_length_bounds emptyState "abc" "x" saltStream0 (by decide)

/-- C1: master-key rotation is not atomic.  On the fault-injected run
(`encrypt_data` of the second entry raises after the first entry's
re-encryption was already committed) `change_master_password` returns a
failure, the stored salt and verifier are unchanged, and a login with the
old password still succeeds — but entry 1 is left encrypted under the new
key and no longer decrypts under the old derived key, violating the
claimed prior-fully-consistent state. -/
theorem rotation_fault_leaves_mixed_keys :
    rotResult.2.1 = false ∧
    rotResult.1.db.users = [⟨1, "alice", aliceSalt, aliceOldKey⟩] ∧
    (∃ e ∈ rotResult.1.db.entries, e.id = 1 ∧
      EncryptionHandler.decrypt_data aliceOldKey e.encrypted_entry_data = none ∧
      EncryptionHandler.decrypt_data aliceNewKey e.encrypted_entry_data =
        some (json_dumps payload1)) ∧
    (PasswordManagerAPI.login_user ⟨rotResult.1.db, none, none, none⟩
      "alice" alicePassword).2.1 = true := by
  decide

end PM
